import Mathlib

/-!
Shallow embedding of `hcsr04sensor/sensor_96boards.py`.

The module defines a single class `Measurement` holding the sensor
configuration, a sampling routine `raw_distance` that drives a trigger pin,
polls an echo pin, converts echo pulse widths to centimeter distances using a
temperature-corrected speed of sound, and returns the middle element of the
sorted sample list, plus four pure unit-conversion helpers.

Modelling conventions:
* Python floats are modelled as exact rationals (`ℚ`); `math.sqrt` is modelled
  as `Real.sqrt` over `ℝ`.
* The hardware environment (successive `GPIO.digital_read` results on the echo
  pin and successive `time.time()` results) is an explicit input `Env`; the
  two streams are consumed via indices `rIdx` (reads) and `tIdx` (clock).
* Every pin interaction (`with GPIO(...)` acquisition, `digital_write`,
  `digital_read`) is recorded in an event log, so "no pin access happened"
  is expressible as an empty log.
* The `while GPIO.digital_read(echo_pin) == 1` loop has no bound in the
  source, so the model threads a `fuel` argument through it; a `none` result
  means the call has not terminated within `fuel` iterations of that loop
  (for every `fuel`), i.e. the Python code diverges.
* Python exceptions are modelled by `Err` and `Except`; the speed of sound is
  a real number computed with `math.sqrt`, so the sampling loop takes the
  already-computed value as the parameter `speed_of_sound` (its computation
  from the configuration is modelled separately by `used_speed_of_sound`).
-/

/-- One GPIO interaction performed by `raw_distance`: entering the
`with GPIO(self.pins)` block, a `digital_write`, or a `digital_read`
(with the level that was read).  `true` models `GPIO.HIGH` (read value `1`),
`false` models `GPIO.LOW` (read value `0`). -/
inductive PinOp where
  | acquire (pins : List (Nat × String))
  | write (pin : Nat) (level : Bool)
  | read (pin : Nat) (level : Bool)

/-- The exceptions the source can raise: `ValueError('Wrong Unit Type. Unit
Must be imperial or metric')`, `SystemError('Echo pulse was not received')`,
Python's `NameError` (local variable used before assignment), and `IndexError`
(list subscript out of range). -/
inductive Err where
  | configError
  | echoTimeout
  | nameError
  | indexError

/-- The `Measurement` object: fields set verbatim by `Measurement.__init__`. -/
structure Measurement where
  trig_pin : Nat
  echo_pin : Nat
  temperature : ℚ
  unit : String
  round_to : ℤ
  pins : List (Nat × String)

/-- `Measurement.__init__`: stores every argument unchanged and builds
`self.pins = ((trig_pin, 'out'), (echo_pin, 'in'))`.  It performs no
validation of any argument. -/
def Measurement.init (trig_pin echo_pin : Nat) (temperature : ℚ)
    (unit : String) (round_to : ℤ) : Measurement :=
  { trig_pin := trig_pin
    echo_pin := echo_pin
    temperature := temperature
    unit := unit
    round_to := round_to
    pins := [(trig_pin, "out"), (echo_pin, "in")] }

/-- Lines 72-78 of `raw_distance`: the unit check and the in-place update of
`self.temperature`.  For `unit == 'imperial'` the stored temperature is
overwritten with `(self.temperature - 32) * 0.5556`; for `'metric'` the object
is unchanged; any other unit raises the `ValueError`.  The returned
`Measurement` is the state of `self` after these lines. -/
def Measurement.normalize_temperature (m : Measurement) : Except Err Measurement :=
  if m.unit = "imperial" then
    .ok { m with temperature := (m.temperature - 32) * 0.5556 }
  else if m.unit = "metric" then
    .ok m
  else
    .error .configError

/-- Line 80: `speed_of_sound = 331.3 * math.sqrt(1+(self.temperature / 273.15))`,
as a function of the (already normalized) stored temperature. -/
noncomputable def speed_of_sound (t : ℚ) : ℝ :=
  331.3 * Real.sqrt (1 + (t : ℝ) / 273.15)

/-- The speed of sound a call to `raw_distance` actually uses: lines 72-80,
i.e. the unit check / temperature normalization followed by the
`speed_of_sound` formula applied to the stored temperature. -/
noncomputable def Measurement.used_speed_of_sound (m : Measurement) : Except Err ℝ :=
  (m.normalize_temperature).map fun m2 => speed_of_sound m2.temperature

/-- The hardware environment of one `raw_distance` call: `read i` is the
result of the `i`-th `GPIO.digital_read(self.echo_pin)` (`true` = `1`), and
`clock i` is the result of the `i`-th `time.time()` call. -/
structure Env where
  read : Nat → Bool
  clock : Nat → ℚ

/-- The mutable local state of the sampling `for` loop: the next read and
clock indices, the Python locals `sonar_signal_off` / `sonar_signal_on`
(`none` = not yet assigned; they persist across iterations of the `for`
loop), the `sample` list, and the pin-event log. -/
structure SampleState where
  rIdx : Nat
  tIdx : Nat
  sonar_signal_off : Option ℚ
  sonar_signal_on : Option ℚ
  sample : List ℚ
  log : List PinOp

/-- Lines 90-96: `while GPIO.digital_read(self.echo_pin) == 0`.  Each low
reading takes a `time.time()` timestamp into `sonar_signal_off` and increments
`echo_status_counter`; once the counter reaches 1000 a further low reading
raises `SystemError('Echo pulse was not received')`.  Here `k` counts the
remaining permitted low readings, `k = 1000 - echo_status_counter`, so the
initial call uses `k = 999` (the counter starts at 1).  On a high reading the
loop exits.  Errors carry the event log accumulated so far. -/
def lowPhase (env : Env) (echo : Nat) :
    Nat → Nat → Nat → Option ℚ → List PinOp →
    Except (Err × List PinOp) (Nat × Nat × Option ℚ × List PinOp)
  | 0, rIdx, tIdx, off, log =>
    if env.read rIdx then
      .ok (rIdx + 1, tIdx, off, log ++ [.read echo true])
    else
      .error (.echoTimeout, log ++ [.read echo false])
  | k + 1, rIdx, tIdx, off, log =>
    if env.read rIdx then
      .ok (rIdx + 1, tIdx, off, log ++ [.read echo true])
    else
      lowPhase env echo k (rIdx + 1) (tIdx + 1)
        (some (env.clock tIdx)) (log ++ [.read echo false])

/-- Lines 97-98: `while GPIO.digital_read(self.echo_pin) == 1:
sonar_signal_on = time.time()`.  The source loop has no bound, so the model
takes `fuel`: a `none` result means the loop is still running after `fuel`
iterations.  Each high reading stores a timestamp in `sonar_signal_on`; a low
reading exits the loop. -/
def highPhase (env : Env) (echo : Nat) :
    Nat → Nat → Nat → Option ℚ → List PinOp →
    Option (Nat × Nat × Option ℚ × List PinOp)
  | 0, _, _, _, _ => none
  | fuel + 1, rIdx, tIdx, onv, log =>
    if env.read rIdx then
      highPhase env echo fuel (rIdx + 1) (tIdx + 1)
        (some (env.clock tIdx)) (log ++ [.read echo true])
    else
      some (rIdx + 1, tIdx, onv, log ++ [.read echo false])

/-- Lines 85-101: one iteration of the sampling `for` loop.  Trigger pulse
(`digital_write` low / high / low; the `time.sleep` calls have no observable
effect in the model), the two echo-polling loops, then
`time_passed = sonar_signal_on - sonar_signal_off` and
`distance_cm = time_passed * ((speed_of_sound * 100) / 2)` appended to
`sample`.  If a needed timestamp local was never assigned, Python raises
`NameError` at the `time_passed` line. -/
def one_sample (env : Env) (speed_of_sound : ℚ) (trig echo : Nat) (fuel : Nat)
    (s : SampleState) : Option (Except (Err × List PinOp) SampleState) :=
  let log0 := s.log ++ [.write trig false, .write trig true, .write trig false]
  match lowPhase env echo 999 s.rIdx s.tIdx s.sonar_signal_off log0 with
  | .error e => some (.error e)
  | .ok (rIdx1, tIdx1, off, log1) =>
    match highPhase env echo fuel rIdx1 tIdx1 s.sonar_signal_on log1 with
    | none => none
    | some (rIdx2, tIdx2, onv, log2) =>
      match onv, off with
      | some sig_on, some sig_off =>
          let time_passed := sig_on - sig_off
          let distance_cm := time_passed * ((speed_of_sound * 100) / 2)
          some (.ok ⟨rIdx2, tIdx2, some sig_off, some sig_on,
                     s.sample ++ [distance_cm], log2⟩)
      | _, _ => some (.error (.nameError, log2))

/-- Line 84: `for distance_reading in range(sample_size)`, iterated
`one_sample`.  Stops at the first raised exception; `none` propagates a
non-terminating high-phase wait. -/
def collectSamples (env : Env) (speed_of_sound : ℚ) (trig echo fuel : Nat) :
    Nat → SampleState → Option (Except (Err × List PinOp) SampleState)
  | 0, s => some (.ok s)
  | n + 1, s =>
    match one_sample env speed_of_sound trig echo fuel s with
    | none => none
    | some (.error e) => some (.error e)
    | some (.ok s2) => collectSamples env speed_of_sound trig echo fuel n s2

/-- Lines 102-106: `sorted_sample = sorted(sample)` followed by
`return sorted_sample[sample_size // 2]`.  Python's `sorted` is an ascending
sort (modelled by `List.insertionSort (· ≤ ·)`); an out-of-range subscript
raises `IndexError`. -/
def median_select (sample : List ℚ) (sample_size : Nat) : Except Err ℚ :=
  let sorted_sample := sample.insertionSort (· ≤ ·)
  match sorted_sample[sample_size / 2]? with
  | some d => .ok d
  | none => .error .indexError

/-- `Measurement.raw_distance` (lines 39-106): unit check and temperature
normalization, speed-of-sound computation (whose real-valued result enters
the loop as the parameter `speed_of_sound`; see `used_speed_of_sound`), pin
acquisition via `with GPIO(self.pins)`, the sampling loop, and the median
selection.  The result pairs the returned value (or raised exception) with
the log of every pin interaction performed; `none` means the call never
terminates (unbounded high-phase wait). -/
def Measurement.raw_distance (m : Measurement) (env : Env)
    (speed_of_sound : ℚ) (fuel sample_size : Nat) :
    Option (Except Err ℚ × List PinOp) :=
  match m.normalize_temperature with
  | .error e => some (.error e, [])
  | .ok m2 =>
    match collectSamples env speed_of_sound m2.trig_pin m2.echo_pin fuel
        sample_size ⟨0, 0, none, none, [], [.acquire m2.pins]⟩ with
    | none => none
    | some (.error (e, log)) => some (.error e, log)
    | some (.ok s) => some (median_select s.sample sample_size, s.log)

/-- Python's built-in `round` on exact values: round half to even, to
`ndigits` decimal digits. -/
def python_round (x : ℚ) (ndigits : ℤ) : ℚ :=
  let scaled := x * (10 : ℚ) ^ ndigits
  let f : ℤ := ⌊scaled⌋
  let n : ℤ :=
    if scaled - f < 1 / 2 then f
    else if 1 / 2 < scaled - f then f + 1
    else if f % 2 = 0 then f else f + 1
  (n : ℚ) / (10 : ℚ) ^ ndigits

/-- Lines 108-111: `round(hole_depth - median_reading, self.round_to)`. -/
def Measurement.depth_metric (m : Measurement) (median_reading hole_depth : ℚ) : ℚ :=
  python_round (hole_depth - median_reading) m.round_to

/-- Lines 113-116: `round(hole_depth - (median_reading * 0.394), self.round_to)`. -/
def Measurement.depth_imperial (m : Measurement) (median_reading hole_depth : ℚ) : ℚ :=
  python_round (hole_depth - median_reading * 0.394) m.round_to

/-- Lines 118-121: `round(median_reading, self.round_to)`. -/
def Measurement.distance_metric (m : Measurement) (median_reading : ℚ) : ℚ :=
  python_round median_reading m.round_to

/-- Lines 123-126: `round(median_reading * 0.394, self.round_to)`. -/
def Measurement.distance_imperial (m : Measurement) (median_reading : ℚ) : ℚ :=
  python_round (median_reading * 0.394) m.round_to

/-!
Concrete hardware environments used to evaluate the model on closed inputs.
-/

/-- Environment producing four clean samples.  Per sample the echo pin reads
low once (timestamping `sonar_signal_off`), then high once (exiting the low
phase), then high once (timestamping `sonar_signal_on`), then low (exiting
the high phase); the clock makes the four pulse widths 5, 6, 7 and 8 seconds.
With `speed_of_sound = 0.02` the factor `(v * 100) / 2` is 1, so the
per-sample distances are `[5, 6, 7, 8]`. -/
def envFourSamples : Env :=
  ⟨fun i => decide (i % 4 = 1) || decide (i % 4 = 2),
   fun i => if i % 2 = 0 then 0 else ((5 + i / 2 : ℕ) : ℚ)⟩

/-- Same read/clock pattern as `envFourSamples`, duplicated so that the
single-sample theorems do not depend on it. -/
def envOneSample : Env :=
  ⟨fun i => decide (i % 4 = 1) || decide (i % 4 = 2),
   fun i => if i % 2 = 0 then 0 else ((5 + i / 2 : ℕ) : ℚ)⟩

/-- The state `one_sample` reaches from the initial state on `envOneSample`
with `speed_of_sound = 0.02`, trigger pin 36 and echo pin 38. -/
def stateOneSample : SampleState :=
  ⟨4, 2, some 0, some 5, [5],
   [.write 36 false, .write 36 true, .write 36 false,
    .read 38 false, .read 38 true, .read 38 true, .read 38 false]⟩

/-- Environment whose echo pin reads low forever: the echo pulse never
arrives. -/
def envStuckLow : Env := ⟨fun _ => false, fun _ => 0⟩

/-- A second all-low environment, used for the constructor claims. -/
def envIdle : Env := ⟨fun _ => false, fun _ => 0⟩

/-- Environment whose echo pin reads low on the very first poll and then high
forever: the low-to-high edge occurs, but the pin never returns to low. -/
def envHighForever : Env := ⟨fun i => decide (1 ≤ i), fun i => (i : ℚ)⟩

/-- Environment whose echo pin reads high forever. -/
def envAllHigh : Env := ⟨fun _ => true, fun _ => 0⟩

/-- Environment whose echo pin already reads high on the very first poll of
the first sample (then low from the third read on): the low-reading loop body
never runs, so `sonar_signal_off` is never assigned. -/
def envImmediateHigh : Env := ⟨fun i => decide (i < 2), fun i => (i : ℚ)⟩

/-- Pin-event log accumulated by the failing first sample on
`envImmediateHigh` (pins of `Measurement.init 36 38 ...`). -/
def logImmediateHigh : List PinOp :=
  [.acquire [(36, "out"), (38, "in")],
   .write 36 false, .write 36 true, .write 36 false,
   .read 38 true, .read 38 true, .read 38 false]

/-- Environment for the stale-timestamp scenario: sample 1 is clean (low,
high, high, low — reads 0-3), but sample 2's first low-phase poll already
reads high (read 4), so its `sonar_signal_off` is the one left over from
sample 1.  Clock: tick 0 = 10 (sample 1 off), tick 1 = 13 (sample 1 on),
tick 2 = 100 (sample 2 on). -/
def envStale : Env :=
  ⟨fun i => decide (i = 1) || decide (i = 2) || decide (i = 4) || decide (i = 5),
   fun i => if i = 0 then 10 else if i = 1 then 13 else 100⟩

/-!
Shared lemmas about the polling loops and the sampling loop.
-/

/-- If the echo pin reads low at every one of the `k + 1` polls the low-phase
loop is still allowed to make, the loop raises the echo timeout. -/
lemma lowPhase_timeout (env : Env) (echo : Nat) :
    ∀ (k rIdx tIdx : Nat) (off : Option ℚ) (log : List PinOp),
      (∀ i, i ≤ k → env.read (rIdx + i) = false) →
      ∃ log2, lowPhase env echo k rIdx tIdx off log = .error (.echoTimeout, log2) := by
  intro k
  induction k with
  | zero =>
      intro rIdx tIdx off log h
      have h0 : env.read rIdx = false := by simpa using h 0 (Nat.le_refl 0)
      exact ⟨log ++ [.read echo false], by simp [lowPhase, h0]⟩
  | succ k2 ih =>
      intro rIdx tIdx off log h
      have h0 : env.read rIdx = false := by simpa using h 0 (Nat.zero_le _)
      obtain ⟨log2, hl⟩ := ih (rIdx + 1) (tIdx + 1) (some (env.clock tIdx))
        (log ++ [.read echo false]) (fun i hi => by
          have h2 := h (i + 1) (Nat.succ_le_succ hi)
          rwa [show rIdx + (i + 1) = rIdx + 1 + i by omega] at h2)
      exact ⟨log2, by simp [lowPhase, h0, hl]⟩

/-- The low-phase loop polls the echo pin at most `k + 1` times before a
normal exit: the final read index exceeds the initial one by at most
`k + 1`. -/
lemma lowPhase_reads_le (env : Env) (echo : Nat) :
    ∀ (k rIdx tIdx : Nat) (off : Option ℚ) (log : List PinOp)
      (r t : Nat) (o : Option ℚ) (l : List PinOp),
      lowPhase env echo k rIdx tIdx off log = .ok (r, t, o, l) →
      r ≤ rIdx + k + 1 := by
  intro k
  induction k with
  | zero =>
      intro rIdx tIdx off log r t o l h
      by_cases h0 : env.read rIdx
      · simp only [lowPhase, h0, if_true] at h
        simp only [Except.ok.injEq, Prod.mk.injEq] at h
        omega
      · simp [lowPhase, h0] at h
  | succ k2 ih =>
      intro rIdx tIdx off log r t o l h
      by_cases h0 : env.read rIdx
      · simp only [lowPhase, h0, if_true] at h
        simp only [Except.ok.injEq, Prod.mk.injEq] at h
        omega
      · simp only [lowPhase, h0, if_false, Bool.false_eq_true] at h
        have := ih (rIdx + 1) (tIdx + 1) (some (env.clock tIdx))
          (log ++ [.read echo false]) r t o l h
        omega

/-- If the echo pin reads high at every poll from the current read index on,
the high-phase loop never exits, whatever the fuel. -/
lemma highPhase_none_of_high (env : Env) (echo : Nat) :
    ∀ (fuel rIdx tIdx : Nat) (onv : Option ℚ) (log : List PinOp),
      (∀ i, rIdx ≤ i → env.read i = true) →
      highPhase env echo fuel rIdx tIdx onv log = none := by
  intro fuel
  induction fuel with
  | zero => intro rIdx tIdx onv log _; rfl
  | succ fuel2 ih =>
      intro rIdx tIdx onv log h
      have h0 : env.read rIdx = true := h rIdx (Nat.le_refl _)
      simp only [highPhase, h0, if_true]
      exact ih (rIdx + 1) (tIdx + 1) _ _ (fun i hi => h i (by omega))

/-- Unfolding rule: a low reading with budget remaining takes a timestamp and
continues the low-phase loop. -/
lemma lowPhase_step_low (env : Env) (echo k rIdx tIdx : Nat) (off : Option ℚ)
    (log : List PinOp) (h : env.read rIdx = false) :
    lowPhase env echo (k + 1) rIdx tIdx off log =
      lowPhase env echo k (rIdx + 1) (tIdx + 1) (some (env.clock tIdx))
        (log ++ [.read echo false]) := by
  simp [lowPhase, h]

/-- Unfolding rule: a high reading exits the low-phase loop. -/
lemma lowPhase_exit_high (env : Env) (echo k rIdx tIdx : Nat) (off : Option ℚ)
    (log : List PinOp) (h : env.read rIdx = true) :
    lowPhase env echo k rIdx tIdx off log =
      .ok (rIdx + 1, tIdx, off, log ++ [.read echo true]) := by
  cases k <;> simp [lowPhase, h]

/-- Unfolding rule: a high reading takes a timestamp and continues the
high-phase loop. -/
lemma highPhase_step_high (env : Env) (echo fuel rIdx tIdx : Nat)
    (onv : Option ℚ) (log : List PinOp) (h : env.read rIdx = true) :
    highPhase env echo (fuel + 1) rIdx tIdx onv log =
      highPhase env echo fuel (rIdx + 1) (tIdx + 1) (some (env.clock tIdx))
        (log ++ [.read echo true]) := by
  simp [highPhase, h]

/-- Unfolding rule: a low reading exits the high-phase loop. -/
lemma highPhase_exit_low (env : Env) (echo fuel rIdx tIdx : Nat)
    (onv : Option ℚ) (log : List PinOp) (h : env.read rIdx = false) :
    highPhase env echo (fuel + 1) rIdx tIdx onv log =
      some (rIdx + 1, tIdx, onv, log ++ [.read echo false]) := by
  simp [highPhase, h]

/-- A successful `one_sample` ends with both timestamp locals assigned and
appends exactly the distance `(sonar_signal_on - sonar_signal_off) *
((speed_of_sound * 100) / 2)` to the sample list. -/
lemma one_sample_ok_spec (env : Env) (v : ℚ) (trig echo fuel : Nat)
    (s s2 : SampleState)
    (h : one_sample env v trig echo fuel s = some (.ok s2)) :
    ∃ sig_off sig_on, s2.sonar_signal_off = some sig_off ∧
      s2.sonar_signal_on = some sig_on ∧
      s2.sample = s.sample ++ [(sig_on - sig_off) * ((v * 100) / 2)] := by
  simp only [one_sample] at h
  split at h
  · simp at h
  · split at h
    · simp at h
    · split at h
      · simp only [Option.some.injEq, Except.ok.injEq] at h
        subst h
        exact ⟨_, _, rfl, rfl, rfl⟩
      · simp at h

/-- A successful pass through the sampling `for` loop appends exactly `n`
distances to the sample list. -/
lemma collectSamples_ok_length (env : Env) (v : ℚ) (trig echo fuel : Nat) :
    ∀ (n : Nat) (s s2 : SampleState),
      collectSamples env v trig echo fuel n s = some (.ok s2) →
      s2.sample.length = s.sample.length + n := by
  intro n
  induction n with
  | zero =>
      intro s s2 h
      simp only [collectSamples, Option.some.injEq, Except.ok.injEq] at h
      subst h
      rfl
  | succ n2 ih =>
      intro s s2 h
      simp only [collectSamples] at h
      cases ho : one_sample env v trig echo fuel s with
      | none => rw [ho] at h; simp at h
      | some r =>
          cases r with
          | error e => rw [ho] at h; simp at h
          | ok s3 =>
              rw [ho] at h
              simp only [] at h
              obtain ⟨sig_off, sig_on, -, -, hsample⟩ :=
                one_sample_ok_spec env v trig echo fuel s s3 ho
              have hlen := ih s3 s2 h
              rw [hsample, List.length_append, List.length_singleton] at hlen
              omega

/-- A unit other than `'imperial'` and `'metric'` makes lines 72-78 raise the
`ValueError`. -/
lemma normalize_bad_unit (m : Measurement)
    (h1 : m.unit ≠ "metric") (h2 : m.unit ≠ "imperial") :
    m.normalize_temperature = .error .configError := by
  unfold Measurement.normalize_temperature
  rw [if_neg h2, if_neg h1]

/-- With `unit == 'metric'` lines 72-78 leave the object unchanged. -/
lemma normalize_metric (m : Measurement) (h : m.unit = "metric") :
    m.normalize_temperature = .ok m := by
  unfold Measurement.normalize_temperature
  rw [if_neg (by simp [h]), if_pos h]

/-- With `unit == 'imperial'` lines 72-78 overwrite the stored temperature
with `(temperature - 32) * 0.5556`. -/
lemma normalize_imperial (m : Measurement) (h : m.unit = "imperial") :
    m.normalize_temperature =
      .ok { m with temperature := (m.temperature - 32) * 0.5556 } := by
  unfold Measurement.normalize_temperature
  rw [if_pos h]

/-- A `raw_distance` call on a configuration with an unrecognized unit raises
the `ValueError` with an empty pin-event log. -/
lemma raw_distance_bad_unit (m : Measurement) (env : Env) (v : ℚ) (fuel n : Nat)
    (h1 : m.unit ≠ "metric") (h2 : m.unit ≠ "imperial") :
    m.raw_distance env v fuel n = some (.error .configError, []) := by
  unfold Measurement.raw_distance
  rw [normalize_bad_unit m h1 h2]

/-- If the echo pin never reads high, a metric `raw_distance` call with a
positive sample size raises the echo timeout. -/
lemma raw_distance_stuck_low (m : Measurement) (env : Env) (v : ℚ) (fuel n : Nat)
    (hu : m.unit = "metric") (hn : n ≠ 0) (hr : ∀ i, env.read i = false) :
    ∃ log, m.raw_distance env v fuel n = some (.error .echoTimeout, log) := by
  obtain ⟨n2, rfl⟩ := Nat.exists_eq_succ_of_ne_zero hn
  obtain ⟨log2, hl⟩ := lowPhase_timeout env m.echo_pin 999 0 0 none
    [.acquire m.pins, .write m.trig_pin false, .write m.trig_pin true,
     .write m.trig_pin false]
    (fun i _ => hr _)
  refine ⟨log2, ?_⟩
  unfold Measurement.raw_distance
  rw [normalize_metric m hu]
  simp [collectSamples, one_sample, hl]

/-- On `envHighForever` (echo low once, then high forever) a metric
`raw_distance` call with one sample never terminates: for every fuel the
model is still inside the high-phase `while` loop. -/
lemma raw_distance_high_forever (v : ℚ) (fuel : Nat) :
    (Measurement.init 36 38 20 "metric" 1).raw_distance envHighForever v fuel 1 =
      none := by
  have hl : ∀ L : List PinOp, lowPhase envHighForever 38 999 0 0 none L =
      .ok (2, 1, some 0, (L ++ [.read 38 false]) ++ [.read 38 true]) := by
    intro L
    simp [lowPhase, envHighForever]
  have hhigh : ∀ (tIdx : Nat) (onv : Option ℚ) (log : List PinOp),
      highPhase envHighForever 38 fuel 2 tIdx onv log = none :=
    fun tIdx onv log => highPhase_none_of_high envHighForever 38 fuel 2 tIdx onv log
      (fun i hi => by simp only [envHighForever]; simp; omega)
  unfold Measurement.raw_distance
  rw [normalize_metric _ rfl]
  simp [collectSamples, one_sample, hl, hhigh, Measurement.init]

/-!
Claim theorems.
-/

/-- Claim C9: a `raw_distance` call on a configuration whose unit is neither
`"metric"` nor `"imperial"` raises the configuration error (`ValueError`)
before any pin access: the pin-event log of the call is empty, so no pin was
acquired, written, or read. -/
theorem config_error_before_pin_access
    (m : Measurement) (env : Env) (v : ℚ) (fuel n : Nat)
    (h1 : m.unit ≠ "metric") (h2 : m.unit ≠ "imperial") :
    m.raw_distance env v fuel n = some (.error .configError, []) :=
  raw_distance_bad_unit m env v fuel n h1 h2

theorem config_error_before_pin_access_witness :
    (Measurement.init 36 38 20 "kelvin" 1).raw_distance envIdle 1 0 11 =
      some (.error .configError, []) :=
  config_error_before_pin_access _ envIdle 1 0 11 (by decide) (by decide)

/-- Claim C2 counterexample: the constructor does not validate the unit.
`Measurement.__init__` with `unit="kelvin"` succeeds and stores `"kelvin"`
verbatim; the configuration error is only raised later, by the first
`raw_distance` call.  This refutes the claim that construction with a bad
unit fails immediately at construction time. -/
theorem constructor_accepts_invalid_unit :
    (Measurement.init 36 38 20 "kelvin" 1).unit = "kelvin" ∧
    (Measurement.init 36 38 20 "kelvin" 1).temperature = 20 ∧
    (Measurement.init 36 38 20 "kelvin" 1).raw_distance envIdle 1 0 11 =
      some (.error .configError, []) :=
  ⟨rfl, rfl, raw_distance_bad_unit _ _ _ _ _ (by decide) (by decide)⟩

/-- Claim C2 amended: constructing with a unit outside
`{"metric", "imperial"}` succeeds and stores the unit unchanged; the
configuration error is raised at the first `raw_distance` call (before any
pin access), not at construction time. -/
theorem unit_check_deferred_to_first_call
    (trig echo : Nat) (t : ℚ) (r : ℤ) (u : String) (env : Env) (v : ℚ)
    (fuel n : Nat) (h1 : u ≠ "metric") (h2 : u ≠ "imperial") :
    (Measurement.init trig echo t u r).unit = u ∧
    (Measurement.init trig echo t u r).raw_distance env v fuel n =
      some (.error .configError, []) :=
  ⟨rfl, raw_distance_bad_unit _ env v fuel n h1 h2⟩

theorem unit_check_deferred_to_first_call_witness :
    (Measurement.init 1 2 0 "feet" 0).unit = "feet" ∧
    (Measurement.init 1 2 0 "feet" 0).raw_distance envIdle 1 0 4 =
      some (.error .configError, []) :=
  unit_check_deferred_to_first_call 1 2 0 0 "feet" envIdle 1 0 4
    (by decide) (by decide)

/-- Claim C5: the low-phase echo wait is bounded.  With the initial counter
budget (`k = 999`, i.e. `echo_status_counter = 1`) the echo pin is polled at
most 1000 times: if all 1000 polls read low the loop raises the echo timeout
(`SystemError('Echo pulse was not received')`), and on a normal exit the read
index advances by at most 1000.  At the call level, a stuck-low echo pin
makes `raw_distance` return the timeout error and no distance value, so no
partial sample reaches any result. -/
theorem echo_low_wait_bounded :
    (∀ (env : Env) (echo rIdx tIdx : Nat) (off : Option ℚ) (log : List PinOp),
        (∀ i, i ≤ 999 → env.read (rIdx + i) = false) →
        ∃ log2, lowPhase env echo 999 rIdx tIdx off log =
          .error (.echoTimeout, log2)) ∧
    (∀ (env : Env) (echo rIdx tIdx : Nat) (off : Option ℚ) (log : List PinOp)
        (r t : Nat) (o : Option ℚ) (l : List PinOp),
        lowPhase env echo 999 rIdx tIdx off log = .ok (r, t, o, l) →
        r ≤ rIdx + 1000) ∧
    (∀ (m : Measurement) (env : Env) (v : ℚ) (fuel n : Nat),
        m.unit = "metric" → n ≠ 0 → (∀ i, env.read i = false) →
        ∃ log, m.raw_distance env v fuel n =
          some (.error .echoTimeout, log)) := by
  refine ⟨fun env echo rIdx tIdx off log h =>
      lowPhase_timeout env echo 999 rIdx tIdx off log h,
    fun env echo rIdx tIdx off log r t o l h => ?_,
    fun m env v fuel n hu hn hr => raw_distance_stuck_low m env v fuel n hu hn hr⟩
  have h2 := lowPhase_reads_le env echo 999 rIdx tIdx off log r t o l h
  omega

theorem echo_low_wait_bounded_witness :
    ∃ log, (Measurement.init 36 38 20 "metric" 1).raw_distance envStuckLow 1 0 11 =
      some (.error .echoTimeout, log) :=
  echo_low_wait_bounded.2.2 _ envStuckLow 1 0 11 rfl (by decide) (fun _ => rfl)

/-- Claim C6: the high-phase echo wait has no bound and no timeout.  If the
echo pin reads high at every poll after the low-to-high edge, the
`while GPIO.digital_read(echo_pin) == 1` loop never exits: for every fuel the
model answers `none` (still running) and raises no error, both for the loop
itself and for a whole `raw_distance` call on an echo input that stays high
forever after the edge. -/
theorem echo_high_wait_unbounded :
    (∀ (env : Env) (echo fuel rIdx tIdx : Nat) (onv : Option ℚ)
        (log : List PinOp),
        (∀ i, rIdx ≤ i → env.read i = true) →
        highPhase env echo fuel rIdx tIdx onv log = none) ∧
    (∀ (v : ℚ) (fuel : Nat),
        (Measurement.init 36 38 20 "metric" 1).raw_distance envHighForever v
          fuel 1 = none) :=
  ⟨fun env echo fuel rIdx tIdx onv log h =>
      highPhase_none_of_high env echo fuel rIdx tIdx onv log h,
   fun v fuel => raw_distance_high_forever v fuel⟩

theorem echo_high_wait_unbounded_witness :
    highPhase envAllHigh 38 5 0 0 none [] = none :=
  echo_high_wait_unbounded.1 envAllHigh 38 5 0 0 none [] (fun _ _ => rfl)

set_option maxRecDepth 8000 in
/-- Claim C1: `raw_distance` sorts the collected per-sample distances and
returns exactly the element at index `sample_size / 2` (floor division) of
the sorted sequence; for even sample sizes this is the upper-middle element,
not the average of the two middle elements.  The sort used is an ascending
sorted permutation of the samples; on the spec example, a call whose four
per-sample distances are `{5, 6, 7, 8}` returns `7`, not `6.5`. -/
theorem raw_distance_median_selection :
    (∀ (sample : List ℚ) (n : Nat)
        (h : n / 2 < (sample.insertionSort (· ≤ ·)).length),
        median_select sample n =
          .ok ((sample.insertionSort (· ≤ ·)).get ⟨n / 2, h⟩)) ∧
    (∀ sample : List ℚ,
        (sample.insertionSort (· ≤ ·)).Sorted (· ≤ ·) ∧
        List.Perm (sample.insertionSort (· ≤ ·)) sample) ∧
    median_select [5, 6, 7, 8] 4 = .ok 7 ∧
    median_select [8, 5, 7, 6] 4 = .ok 7 ∧
    median_select [8, 5, 7, 6] 4 ≠ .ok 6.5 ∧
    (collectSamples envFourSamples 0.02 36 38 2 4 ⟨0, 0, none, none, [], []⟩).map
        (Except.map SampleState.sample) = some (.ok [5, 6, 7, 8]) ∧
    ((Measurement.init 36 38 20 "metric" 1).raw_distance envFourSamples 0.02 2 4).map
        Prod.fst = some (.ok 7) := by
  refine ⟨?_, ?_, ?_, ?_, ?_, ?_, ?_⟩
  · intro sample n h
    simp only [median_select]
    rw [List.getElem?_eq_getElem h]
    rfl
  · intro sample
    exact ⟨List.sorted_insertionSort _ _, List.perm_insertionSort _ _⟩
  · norm_num [median_select, List.insertionSort, List.orderedInsert]
  · norm_num [median_select, List.insertionSort, List.orderedInsert]
  · norm_num [median_select, List.insertionSort, List.orderedInsert]
  · norm_num [collectSamples, one_sample, lowPhase_step_low, lowPhase_exit_high,
      highPhase_step_high, highPhase_exit_low, envFourSamples, Except.map]
  · unfold Measurement.raw_distance
    rw [normalize_metric _ rfl]
    norm_num [collectSamples, one_sample, lowPhase_step_low, lowPhase_exit_high,
      highPhase_step_high, highPhase_exit_low, envFourSamples, Measurement.init,
      median_select, List.insertionSort, List.orderedInsert]

theorem raw_distance_median_selection_witness :
    median_select [1, 3, 2] 3 =
      .ok ((List.insertionSort (· ≤ ·) [(1 : ℚ), 3, 2]).get
        ⟨3 / 2, by rw [List.length_insertionSort]; norm_num⟩) :=
  raw_distance_median_selection.1 [1, 3, 2] 3
    (by rw [List.length_insertionSort]; norm_num)

/-- Claim C7: every successful sample appends exactly the distance
`(sonar_signal_on - sonar_signal_off) * ((speed_of_sound * 100) / 2)`
centimeters — elapsed time between the timestamp of the last low reading
before the low-to-high edge and the timestamp of the last high reading,
times `(v * 100) / 2` — and a successful pass through the sampling loop
collects exactly `sample_size` distances. -/
theorem sample_distance_formula :
    (∀ (env : Env) (v : ℚ) (trig echo fuel : Nat) (s s2 : SampleState),
        one_sample env v trig echo fuel s = some (.ok s2) →
        ∃ sig_off sig_on, s2.sonar_signal_off = some sig_off ∧
          s2.sonar_signal_on = some sig_on ∧
          s2.sample = s.sample ++ [(sig_on - sig_off) * ((v * 100) / 2)]) ∧
    (∀ (env : Env) (v : ℚ) (trig echo fuel n : Nat) (s s2 : SampleState),
        collectSamples env v trig echo fuel n s = some (.ok s2) →
        s2.sample.length = s.sample.length + n) :=
  ⟨fun env v trig echo fuel s s2 h => one_sample_ok_spec env v trig echo fuel s s2 h,
   fun env v trig echo fuel n s s2 h =>
     collectSamples_ok_length env v trig echo fuel n s s2 h⟩

theorem sample_distance_formula_witness :
    ∃ sig_off sig_on, stateOneSample.sonar_signal_off = some sig_off ∧
      stateOneSample.sonar_signal_on = some sig_on ∧
      stateOneSample.sample = [] ++ [(sig_on - sig_off) * (((0.02 : ℚ) * 100) / 2)] :=
  sample_distance_formula.1 envOneSample 0.02 36 38 2 ⟨0, 0, none, none, [], []⟩
    stateOneSample
    (by norm_num [one_sample, lowPhase_step_low, lowPhase_exit_high,
      highPhase_step_high, highPhase_exit_low, envOneSample, stateOneSample])

/-- Claim C3 (code bug): temperature normalization is not idempotent across
calls.  Lines 72-73 overwrite `self.temperature` in place, so a second
`raw_distance` call with `unit='imperial'` re-applies the Fahrenheit-to-
Celsius conversion to the already-converted value: starting from 68 °F the
first call uses 20.0016 °C but the second call uses
`(20.0016 - 32) * 0.5556 = -6.66631104`, a different temperature. -/
theorem temperature_mutated_per_call :
    ((Measurement.init 36 38 68 "imperial" 1).normalize_temperature).map
        Measurement.temperature = .ok 20.0016 ∧
    (((Measurement.init 36 38 68 "imperial" 1).normalize_temperature).bind
        Measurement.normalize_temperature).map Measurement.temperature =
      .ok (-6.66631104) ∧
    (-6.66631104 : ℚ) ≠ 20.0016 := by
  refine ⟨?_, ?_, by norm_num⟩ <;>
    norm_num [Measurement.normalize_temperature, Measurement.init,
      Except.map, Except.bind]

/-- Claim C4: the speed of sound used by a call is
`331.3 * sqrt(1 + T_celsius / 273.15)` m/s, where `T_celsius` is the stored
temperature for `unit="metric"` and `(temperature - 32) * 0.5556` for
`unit="imperial"`; in particular `unit="imperial"`, `temperature=68` uses
`T_celsius = 20.0016`. -/
theorem speed_of_sound_per_unit :
    (∀ m : Measurement, m.unit = "metric" →
        m.used_speed_of_sound = .ok (speed_of_sound m.temperature)) ∧
    (∀ m : Measurement, m.unit = "imperial" →
        m.used_speed_of_sound =
          .ok (speed_of_sound ((m.temperature - 32) * 0.5556))) ∧
    (Measurement.init 36 38 68 "imperial" 1).used_speed_of_sound =
      .ok (speed_of_sound 20.0016) ∧
    ∀ t : ℚ, speed_of_sound t = 331.3 * Real.sqrt (1 + (t : ℝ) / 273.15) := by
  refine ⟨?_, ?_, ?_, fun t => rfl⟩
  · intro m h
    unfold Measurement.used_speed_of_sound
    rw [normalize_metric m h]
    rfl
  · intro m h
    unfold Measurement.used_speed_of_sound
    rw [normalize_imperial m h]
    rfl
  · unfold Measurement.used_speed_of_sound
    rw [normalize_imperial _ rfl]
    have h68 : (((Measurement.init 36 38 68 "imperial" 1).temperature - 32)
        * 0.5556 : ℚ) = 20.0016 := by
      norm_num [Measurement.init]
    simp [Except.map, h68]

theorem speed_of_sound_per_unit_witness :
    (Measurement.init 36 38 25 "metric" 1).used_speed_of_sound =
      .ok (speed_of_sound 25) :=
  speed_of_sound_per_unit.1 _ rfl

/-- Claim C8: the four unit-conversion operations are pure functions of their
numeric arguments and the configured rounding precision, computing exactly
the rounded expressions of the source; two configurations with the same
`round_to` give identical results, so no other configuration state is
consulted and none is modified. -/
theorem unit_conversions_pure
    (m m2 : Measurement) (raw hole : ℚ) (h : m.round_to = m2.round_to) :
    m.distance_metric raw = python_round raw m.round_to ∧
    m.distance_imperial raw = python_round (raw * 0.394) m.round_to ∧
    m.depth_metric raw hole = python_round (hole - raw) m.round_to ∧
    m.depth_imperial raw hole = python_round (hole - raw * 0.394) m.round_to ∧
    m.distance_metric raw = m2.distance_metric raw ∧
    m.distance_imperial raw = m2.distance_imperial raw ∧
    m.depth_metric raw hole = m2.depth_metric raw hole ∧
    m.depth_imperial raw hole = m2.depth_imperial raw hole := by
  refine ⟨rfl, rfl, rfl, rfl, ?_, ?_, ?_, ?_⟩ <;>
    simp [Measurement.distance_metric, Measurement.distance_imperial,
      Measurement.depth_metric, Measurement.depth_imperial, h]

theorem unit_conversions_pure_witness :
    (Measurement.init 1 2 20 "metric" 1).distance_metric 10.5 =
        python_round 10.5 1 ∧
    (Measurement.init 1 2 20 "metric" 1).distance_imperial 10.5 =
        python_round (10.5 * 0.394) 1 ∧
    (Measurement.init 1 2 20 "metric" 1).depth_metric 10.5 100 =
        python_round (100 - 10.5) 1 ∧
    (Measurement.init 1 2 20 "metric" 1).depth_imperial 10.5 100 =
        python_round (100 - 10.5 * 0.394) 1 ∧
    (Measurement.init 1 2 20 "metric" 1).distance_metric 10.5 =
        (Measurement.init 3 4 99 "imperial" 1).distance_metric 10.5 ∧
    (Measurement.init 1 2 20 "metric" 1).distance_imperial 10.5 =
        (Measurement.init 3 4 99 "imperial" 1).distance_imperial 10.5 ∧
    (Measurement.init 1 2 20 "metric" 1).depth_metric 10.5 100 =
        (Measurement.init 3 4 99 "imperial" 1).depth_metric 10.5 100 ∧
    (Measurement.init 1 2 20 "metric" 1).depth_imperial 10.5 100 =
        (Measurement.init 3 4 99 "imperial" 1).depth_imperial 10.5 100 :=
  unit_conversions_pure (Measurement.init 1 2 20 "metric" 1)
    (Measurement.init 3 4 99 "imperial" 1) 10.5 100 rfl

/-- Claim C10 (implicit): if the echo pin already reads high at the very
first poll of the first sample's low-phase wait, the loop body never runs,
`sonar_signal_off` is never assigned, and the `time_passed` line fails with
Python's `NameError` — which is neither the configuration error nor the echo
timeout.  On a later sample the same situation instead silently reuses the
previous sample's timestamp: on `envStale`, sample 1 stores
`sonar_signal_off = 10`, sample 2's low phase exits on its first poll, and
sample 2's distance is computed as `100 - 10 = 90` from the stale
timestamp. -/
theorem unassigned_timestamp_behavior :
    (Measurement.init 36 38 20 "metric" 1).raw_distance envImmediateHigh 1 5 11 =
      some (.error .nameError, logImmediateHigh) ∧
    Err.nameError ≠ Err.configError ∧
    Err.nameError ≠ Err.echoTimeout ∧
    (collectSamples envStale 0.02 36 38 5 2 ⟨0, 0, none, none, [], []⟩).map
        (Except.map SampleState.sample) = some (.ok [3, 90]) ∧
    (collectSamples envStale 0.02 36 38 5 2 ⟨0, 0, none, none, [], []⟩).map
        (Except.map SampleState.sonar_signal_off) = some (.ok (some 10)) := by
  refine ⟨?_, fun h => Err.noConfusion h, fun h => Err.noConfusion h, ?_, ?_⟩
  · unfold Measurement.raw_distance
    rw [normalize_metric _ rfl]
    norm_num [collectSamples, one_sample, lowPhase_step_low, lowPhase_exit_high,
      highPhase_step_high, highPhase_exit_low, envImmediateHigh,
      Measurement.init, logImmediateHigh]
  · norm_num [collectSamples, one_sample, lowPhase_step_low, lowPhase_exit_high,
      highPhase_step_high, highPhase_exit_low, envStale, Except.map]
  · norm_num [collectSamples, one_sample, lowPhase_step_low, lowPhase_exit_high,
      highPhase_step_high, highPhase_exit_low, envStale, Except.map]
